import Mathlib

/-!
Shallow embedding of the AgentKarma trust-scoring pipeline: the v3 scoring
engine (`compute` v3), the v2 scoring engine (`src/scoring/compute.ts`), the
compute-unit budget governor (`cu-tracker`), the x402 payment indexer, the
ERC-8004 identity indexer's wallet upsert, and the webhook matcher.
Machine reals (JS numbers) are modelled as `ℝ`; possibly-invalid `Date`
values are modelled as `Option ℝ` (milliseconds since epoch, `none` for an
invalid date); database counters are `ℕ`; scores are `ℤ`.
-/

namespace AgentKarma

/-- Milliseconds per day, the divisor `1000 * 60 * 60 * 24` used by the
date-based signal shapers. -/
def msPerDay : ℝ := 86400000

namespace V3

/-- The seven weights of the v3 engine (source object `WEIGHTS`). -/
structure WeightsT where
  loyalty : ℝ
  activity : ℝ
  diversity : ℝ
  feedback : ℝ
  volume : ℝ
  recency : ℝ
  age : ℝ

/-- v3 `WEIGHTS` constant. -/
def WEIGHTS : WeightsT :=
  { loyalty := 0.30, activity := 0.18, diversity := 0.16, feedback := 0.15,
    volume := 0.10, recency := 0.06, age := 0.05 }

/-- v3 `ageScore`: log-scale days since first seen. `none` models an invalid
date (the `isNaN` guard in the source). -/
noncomputable def ageScore (now : ℝ) (firstSeenAt : Option ℝ) : ℝ :=
  match firstSeenAt with
  | none => 0
  | some t =>
    let days := (now - t) / msPerDay
    if days < 0 then 0
    else min 100 (Real.logb 10 (days + 1) / Real.logb 10 181 * 100)

/-- v3 `activityScore`: tx count on a log10 scale saturating at 100 txns. -/
noncomputable def activityScore (txCount : ℕ) : ℝ :=
  if txCount = 0 then 0
  else min 100 (Real.logb 10 ((txCount : ℝ) + 1) / Real.logb 10 101 * 100)

/-- v3 `diversityScore`: unique counterparties on a log10 scale capping at 30. -/
noncomputable def diversityScore (uniqueCounterparties : ℕ) : ℝ :=
  if uniqueCounterparties = 0 then 0
  else min 100 (Real.logb 10 ((uniqueCounterparties : ℝ) + 1) / Real.logb 10 31 * 100)

/-- v3 `loyaltyScore`: repeat-business ratio with the Sybil cap. -/
noncomputable def loyaltyScore (txCount uniqueCounterparties : ℕ) : ℝ :=
  if txCount ≤ 1 ∨ uniqueCounterparties = 0 then 0
  else
    let avgTxPerPartner : ℝ := (txCount : ℝ) / (uniqueCounterparties : ℝ)
    if avgTxPerPartner > 20 ∧ uniqueCounterparties < 3 then
      min 40 ((avgTxPerPartner - 1) / 4 * 100)
    else
      min 100 ((avgTxPerPartner - 1) / 4 * 100)

/-- v3 `recencyScore`: days since last activity with a linear 7→90 day decay. -/
noncomputable def recencyScore (now : ℝ) (lastSeenAt : Option ℝ) : ℝ :=
  match lastSeenAt with
  | none => 0
  | some t =>
    let days := (now - t) / msPerDay
    if days < 0 then 100
    else if days ≤ 7 then 100
    else if days ≥ 90 then 0
    else max 0 (100 - (days - 7) / 83 * 100)

/-- v3 `feedbackScore`: confidence-weighted average, neutral 50 with no data. -/
noncomputable def feedbackScore (avgFeedback : Option ℝ) (feedbackCount : ℕ) : ℝ :=
  match avgFeedback with
  | none => 50
  | some avg =>
    if feedbackCount = 0 then 50
    else
      let rawScore := min 100 (avg / 5 * 100)
      let confidence := min 1 ((feedbackCount : ℝ) / 10)
      confidence * rawScore + (1 - confidence) * 50

/-- v3 `volumeScore`: average USDC deal size on a log10 scale, neutral 50
with no volume data. -/
noncomputable def volumeScore (totalVolumeUSDC : ℝ) (counterparties : ℕ) : ℝ :=
  if totalVolumeUSDC ≤ 0 ∨ counterparties = 0 then 50
  else
    let avgDealSize := totalVolumeUSDC / (counterparties : ℝ)
    min 100 (Real.logb 10 (avgDealSize + 1) / Real.logb 10 10001 * 100)

/-- v3 `WalletSignals` input bundle. -/
structure WalletSignals where
  address : String
  tx_count : ℕ
  first_seen_at : Option ℝ
  last_seen_at : Option ℝ
  unique_counterparties : ℕ
  avg_feedback : Option ℝ
  feedback_count : ℕ
  total_volume_usdc : ℝ
  volume_counterparties : ℕ
  is_registered : Bool

/-- Result of `computeScore`: the final integer score and the persisted
breakdown map (signal name to rounded integer). -/
structure ScoreResult where
  score : ℤ
  breakdown : List (String × ℤ)

/-- v3 `computeScore`: weighted sum of the shapers, rounded, +5 if
registered, clamped to [0,100]. -/
noncomputable def computeScore (now : ℝ) (w : WalletSignals) : ScoreResult :=
  let age := ageScore now w.first_seen_at
  let activity := activityScore w.tx_count
  let diversity := diversityScore w.unique_counterparties
  let loyalty := loyaltyScore w.tx_count w.unique_counterparties
  let recency := recencyScore now w.last_seen_at
  let feedback := feedbackScore w.avg_feedback w.feedback_count
  let volume := volumeScore w.total_volume_usdc w.volume_counterparties
  let score0 : ℤ := round (loyalty * WEIGHTS.loyalty +
    activity * WEIGHTS.activity +
    diversity * WEIGHTS.diversity +
    feedback * WEIGHTS.feedback +
    volume * WEIGHTS.volume +
    recency * WEIGHTS.recency +
    age * WEIGHTS.age)
  let score1 : ℤ := if w.is_registered then score0 + 5 else score0
  let score2 : ℤ := max 0 (min 100 score1)
  { score := score2,
    breakdown := [("loyalty", round loyalty), ("activity", round activity),
      ("diversity", round diversity), ("feedback", round feedback),
      ("volume", round volume), ("age", round age), ("recency", round recency),
      ("registered_bonus", if w.is_registered then 5 else 0)] }

/-- The spec's composition formula, written as the spec states it: the
weighted sum of the seven shaper outputs with weights loyalty 0.30,
activity 0.18, diversity 0.16, feedback 0.15, volume 0.10, recency 0.06,
age 0.05. -/
noncomputable def specWeightedSum (now : ℝ) (w : WalletSignals) : ℝ :=
  0.30 * loyaltyScore w.tx_count w.unique_counterparties +
  0.18 * activityScore w.tx_count +
  0.16 * diversityScore w.unique_counterparties +
  0.15 * feedbackScore w.avg_feedback w.feedback_count +
  0.10 * volumeScore w.total_volume_usdc w.volume_counterparties +
  0.06 * recencyScore now w.last_seen_at +
  0.05 * ageScore now w.first_seen_at

end V3

namespace V2

/-- The six weights of the v2 engine (`src/scoring/compute.ts` `WEIGHTS`). -/
structure WeightsT where
  loyalty : ℝ
  activity : ℝ
  diversity : ℝ
  feedback : ℝ
  age : ℝ
  recency : ℝ

/-- v2 `WEIGHTS` constant. -/
def WEIGHTS : WeightsT :=
  { loyalty := 0.32, activity := 0.20, diversity := 0.18, feedback := 0.15,
    age := 0.09, recency := 0.06 }

/-- v2 `ageScore`: linear days since first seen, capped at 180 days. -/
noncomputable def ageScore (now : ℝ) (firstSeenAt : Option ℝ) : ℝ :=
  match firstSeenAt with
  | none => 0
  | some t =>
    let days := (now - t) / msPerDay
    if days < 0 then 0
    else min 100 (days / 180 * 100)

/-- v2 `activityScore` (same text as v3). -/
noncomputable def activityScore (txCount : ℕ) : ℝ :=
  if txCount = 0 then 0
  else min 100 (Real.logb 10 ((txCount : ℝ) + 1) / Real.logb 10 101 * 100)

/-- v2 `diversityScore` (same text as v3). -/
noncomputable def diversityScore (uniqueCounterparties : ℕ) : ℝ :=
  if uniqueCounterparties = 0 then 0
  else min 100 (Real.logb 10 ((uniqueCounterparties : ℝ) + 1) / Real.logb 10 31 * 100)

/-- v2 `loyaltyScore` (same text as v3). -/
noncomputable def loyaltyScore (txCount uniqueCounterparties : ℕ) : ℝ :=
  if txCount ≤ 1 ∨ uniqueCounterparties = 0 then 0
  else
    let avgTxPerPartner : ℝ := (txCount : ℝ) / (uniqueCounterparties : ℝ)
    if avgTxPerPartner > 20 ∧ uniqueCounterparties < 3 then
      min 40 ((avgTxPerPartner - 1) / 4 * 100)
    else
      min 100 ((avgTxPerPartner - 1) / 4 * 100)

/-- v2 `recencyScore` (same text as v3). -/
noncomputable def recencyScore (now : ℝ) (lastSeenAt : Option ℝ) : ℝ :=
  match lastSeenAt with
  | none => 0
  | some t =>
    let days := (now - t) / msPerDay
    if days < 0 then 100
    else if days ≤ 7 then 100
    else if days ≥ 90 then 0
    else max 0 (100 - (days - 7) / 83 * 100)

/-- v2 `feedbackScore` (same text as v3). -/
noncomputable def feedbackScore (avgFeedback : Option ℝ) (feedbackCount : ℕ) : ℝ :=
  match avgFeedback with
  | none => 50
  | some avg =>
    if feedbackCount = 0 then 50
    else
      let rawScore := min 100 (avg / 5 * 100)
      let confidence := min 1 ((feedbackCount : ℝ) / 10)
      confidence * rawScore + (1 - confidence) * 50

/-- v2 `WalletSignals` input bundle (no volume fields). -/
structure WalletSignals where
  address : String
  tx_count : ℕ
  first_seen_at : Option ℝ
  last_seen_at : Option ℝ
  unique_counterparties : ℕ
  avg_feedback : Option ℝ
  feedback_count : ℕ
  is_registered : Bool

/-- Result of the v2 `computeScore`. -/
structure ScoreResult where
  score : ℤ
  breakdown : List (String × ℤ)

/-- v2 `computeScore`: weighted sum of six shapers, rounded, +5 if
registered, clamped to [0,100]. -/
noncomputable def computeScore (now : ℝ) (w : WalletSignals) : ScoreResult :=
  let age := ageScore now w.first_seen_at
  let activity := activityScore w.tx_count
  let diversity := diversityScore w.unique_counterparties
  let loyalty := loyaltyScore w.tx_count w.unique_counterparties
  let recency := recencyScore now w.last_seen_at
  let feedback := feedbackScore w.avg_feedback w.feedback_count
  let score0 : ℤ := round (loyalty * WEIGHTS.loyalty +
    activity * WEIGHTS.activity +
    diversity * WEIGHTS.diversity +
    feedback * WEIGHTS.feedback +
    age * WEIGHTS.age +
    recency * WEIGHTS.recency)
  let score1 : ℤ := if w.is_registered then score0 + 5 else score0
  let score2 : ℤ := max 0 (min 100 score1)
  { score := score2,
    breakdown := [("loyalty", round loyalty), ("activity", round activity),
      ("diversity", round diversity), ("feedback", round feedback),
      ("age", round age), ("recency", round recency),
      ("registered_bonus", if w.is_registered then 5 else 0)] }

end V2

/-! ### Budget governor (`cu-tracker`) -/

/-- CU cost table with the conservative default of 50 for unknown methods
(source `CU_COSTS[method] ?? 50`). -/
def cuCost (method : String) : ℕ :=
  if method = "eth_getLogs" then 75
  else if method = "eth_call" then 26
  else if method = "eth_getBlockByNumber" then 16
  else if method = "eth_getTransactionReceipt" then 15
  else if method = "eth_getTransaction" then 13
  else if method = "eth_blockNumber" then 0
  else 50

/-- Monthly CU budget (source `MONTHLY_CU_BUDGET`). -/
def MONTHLY_CU_BUDGET : ℕ := 30000000

/-- Warning fraction (source `CU_WARNING_THRESHOLD`). -/
def CU_WARNING_THRESHOLD : ℚ := 0.8

/-- Process-scoped governor state: session CU total, per-method call counts,
and the one-way terminal flag. -/
structure CUState where
  sessionCUs : ℕ
  methodCounts : String → ℕ
  budgetExceeded : Bool

/-- Governor state at process start. -/
def initCUState : CUState := ⟨0, fun _ => 0, false⟩

/-- Outcome of one `trackCU` call: the new state, whether the 80% warning
was printed, and whether the 90% abort message was printed. -/
structure TrackResult where
  state : CUState
  warned : Bool
  aborted : Bool

/-- `trackCU(method, count)`: add cost, then either print the abort message
while setting the terminal flag (first time usage is at or above 90%) or
print the warning (usage at or above the 80% threshold). -/
def trackCU (s : CUState) (method : String) (count : ℕ) : TrackResult :=
  let totalCost := cuCost method * count
  let cus := s.sessionCUs + totalCost
  let counts := fun m => if m = method then s.methodCounts m + count else s.methodCounts m
  let pct : ℚ := (cus : ℚ) / (MONTHLY_CU_BUDGET : ℚ)
  if pct ≥ 9/10 ∧ s.budgetExceeded = false then
    ⟨⟨cus, counts, true⟩, false, true⟩
  else if pct ≥ CU_WARNING_THRESHOLD then
    ⟨⟨cus, counts, s.budgetExceeded⟩, true, false⟩
  else
    ⟨⟨cus, counts, s.budgetExceeded⟩, false, false⟩

/-- `shouldStop()`: the terminal flag. -/
def shouldStop (s : CUState) : Bool := s.budgetExceeded

/-- Run a sequence of `trackCU` calls, returning the final state and the
number of warnings printed. -/
def runCalls (s : CUState) : List (String × ℕ) → CUState × ℕ
  | [] => (s, 0)
  | (m, n) :: rest =>
    let r := trackCU s m n
    let res := runCalls r.state rest
    (res.1, (if r.warned then 1 else 0) + res.2)

/-- Count the calls of a trace whose cumulative usage, starting from `cus`
consumed CUs, is at or above the 80% warning threshold. -/
def countHot (cus : ℕ) : List (String × ℕ) → ℕ
  | [] => 0
  | (m, n) :: rest =>
    let cus2 := cus + cuCost m * n
    (if ((cus2 : ℚ) / (MONTHLY_CU_BUDGET : ℚ) ≥ CU_WARNING_THRESHOLD) then 1 else 0) +
      countHot cus2 rest

/-! ### Indexer cursor arithmetic (x402 indexer `main` and batch loop) -/

/-- Blocks per `eth_getLogs` call (source `BATCH_SIZE = 10`). -/
def BATCH_SIZE : ℕ := 10

/-- Average Base blocks per day (source `BASE_BLOCKS_PER_DAY = 43200`). -/
def BASE_BLOCKS_PER_DAY : ℕ := 43200

/-- The batch loop's effect on the persisted cursor: scan `[current, toBlock]`
in batches of `BATCH_SIZE`, upserting the cursor to each batch end. Returns
the cursor after a clean run (`cursor` is its value when no batch runs). -/
def runBatches (cursor current toBlock : ℕ) : ℕ :=
  if h : current ≤ toBlock then
    runBatches (min (current + (BATCH_SIZE - 1)) toBlock)
      (min (current + (BATCH_SIZE - 1)) toBlock + 1) toBlock
  else cursor
termination_by toBlock + 1 - current
decreasing_by
  simp only [BATCH_SIZE]
  omega

/-- `fromBlock` computation of the x402 indexer `main`: cursor + 1, or the
`--days` backfill window when no cursor exists. -/
def x402FromBlock (cursor : Option ℕ) (head daysBack : ℕ) : ℕ :=
  match cursor with
  | some lastBlock => lastBlock + 1
  | none => head - BASE_BLOCKS_PER_DAY * daysBack

/-- `toBlock` computation: the chain head, shrunk to `fromBlock + limit`
when an operator limit makes that smaller. -/
def x402ToBlock (fromBlock head : ℕ) (blockLimit : Option ℕ) : ℕ :=
  match blockLimit with
  | some l => if fromBlock + l < head then fromBlock + l else head
  | none => head

/-- One clean (no budget stop, no errors) x402 indexer run: returns the
cursor state after the run; the run is a no-op (cursor untouched) when
`fromBlock` is past the head. -/
def runX402Indexer (cursor : Option ℕ) (head daysBack : ℕ) (blockLimit : Option ℕ) : Option ℕ :=
  let fromB := x402FromBlock cursor head daysBack
  let toB := x402ToBlock fromB head blockLimit
  if head < fromB then cursor
  else some (runBatches (cursor.getD 0) fromB toB)

/-! ### Wallet rows and the two scanners' upserts -/

/-- A row of the `wallets` table (the columns the indexers touch). -/
structure WalletRow where
  address : String
  source : String
  chain : String
  erc8004_id : Option ℕ
  first_seen_block : ℕ
  first_seen_at : ℕ
  last_seen_at : ℕ
  tx_count : ℕ
  needs_rescore : Bool
deriving DecidableEq

/-- Fresh wallet inserted by the identity scanner (`indexMints` insert
columns; `tx_count`, timestamps and `needs_rescore` take their schema
defaults 0, `NOW()` and `true`). -/
def mintFresh (addr : String) (tokenId block now : ℕ) : WalletRow :=
  { address := addr, source := "erc8004", chain := "ethereum",
    erc8004_id := some tokenId, first_seen_block := block,
    first_seen_at := now, last_seen_at := now, tx_count := 0,
    needs_rescore := true }

/-- The identity scanner's `ON CONFLICT (address) DO UPDATE` clause:
flip `source` from `x402` to `both`, `COALESCE` the existing `erc8004_id`
with the incoming one, and set `last_seen_at = NOW()`. -/
def mintUpdate (w : WalletRow) (tokenId now : ℕ) : WalletRow :=
  { w with
    source := if w.source = "x402" then "both" else w.source,
    erc8004_id := match w.erc8004_id with
      | some i => some i
      | none => some tokenId,
    last_seen_at := now }

/-- Identity-scanner upsert of one wallet. -/
def applyMint (cur : Option WalletRow) (addr : String) (tokenId block now : ℕ) : WalletRow :=
  match cur with
  | none => mintFresh addr tokenId block now
  | some w => mintUpdate w tokenId now

/-- Fresh wallet inserted by the payment scanner (`indexX402` insert values;
`needs_rescore` takes its schema default `true`). -/
def x402Fresh (addr : String) (block now : ℕ) : WalletRow :=
  { address := addr, source := "x402", chain := "base", erc8004_id := none,
    first_seen_block := block, first_seen_at := now, last_seen_at := now,
    tx_count := 1, needs_rescore := true }

/-- The payment scanner's `ON CONFLICT (address) DO UPDATE` clause:
flip `source` from `erc8004` to `both`, bump `last_seen_at`, increment
`tx_count`, set `needs_rescore = true`. -/
def x402Update (w : WalletRow) (now : ℕ) : WalletRow :=
  { w with
    source := if w.source = "erc8004" then "both" else w.source,
    last_seen_at := now,
    tx_count := w.tx_count + 1,
    needs_rescore := true }

/-- Payment-scanner upsert of one wallet. -/
def applyX402 (cur : Option WalletRow) (addr : String) (block now : ℕ) : WalletRow :=
  match cur with
  | none => x402Fresh addr block now
  | some w => x402Update w now

/-- One observation of a fixed wallet by either scanner. -/
inductive Obs where
  | mint (tokenId block now : ℕ)
  | pay (block now : ℕ)

/-- Apply one observation to the wallet's current row. -/
def applyObs (addr : String) (cur : Option WalletRow) : Obs → WalletRow
  | Obs.mint tokenId block now => applyMint cur addr tokenId block now
  | Obs.pay block now => applyX402 cur addr block now

/-- Apply a sequence of observations of one wallet. -/
def obsFold (addr : String) (cur : Option WalletRow) (l : List Obs) : Option WalletRow :=
  l.foldl (fun c o => some (applyObs addr c o)) cur

/-! ### Payment scanner: receipt processing (`indexX402` inner loop) -/

/-- Base USDC contract address (source `BASE_USDC`). -/
def BASE_USDC : String := "0x833589fCD6eDb6E08f4c7C32D4f71b54bdA02913"

/-- Known x402 facilitator gas payers (source `KNOWN_FACILITATORS`). -/
def KNOWN_FACILITATORS : List String := ["0xa9236f4950001355455a5b016a25fa27b947c9ac"]

/-- Canonical ERC-20 `Transfer` topic hash (source `TRANSFER_TOPIC`). -/
def TRANSFER_TOPIC : String := "0xddf252ad1be2c89b69c2b068fc378daa952ba7f163c4a11628f55a4df523b3ef"

/-- An undecoded receipt log: emitter address, topic list, and the data word
already parsed as an unsigned integer (`BigInt(t.data)`). -/
structure RawLog where
  address : String
  topics : List String
  data : ℕ
deriving DecidableEq

/-- A decoded `AuthorizationUsed` log from the batch's `getLogs` result. -/
structure AuthLog where
  txHash : String
  authorizer : String
deriving DecidableEq

/-- The receipt and transaction-envelope data the scanner uses for one
transaction hash. -/
structure Receipt where
  txHash : String
  blockNumber : ℕ
  txFrom : String
  logs : List RawLog

/-- A row of the `transactions` table. -/
structure TxRow where
  tx_hash : String
  block_number : ℕ
  chain : String
  authorizer : String
  payer : String
  recipient : String
  amount_raw : ℕ
  amount_usdc : ℚ
  facilitator : String
  is_x402 : Bool
deriving DecidableEq

/-- Character-wise ASCII lowercasing, the model of JavaScript
`toLowerCase()` on hex strings. -/
def strLower (s : String) : String :=
  String.mk (s.data.map Char.toLower)

/-- The receipt's USDC `Transfer` logs: emitter is the USDC contract
(case-insensitively) and topic0 is the canonical `Transfer` hash. -/
def usdcTransfers (r : Receipt) : List RawLog :=
  r.logs.filter fun l =>
    strLower l.address == strLower BASE_USDC && l.topics.head? == some TRANSFER_TOPIC

/-- Decode an address from a 32-byte topic:
`('0x' + topic.slice(26)).toLowerCase()`. -/
def decodeTopicAddr (topic : String) : String :=
  strLower ("0x" ++ topic.drop 26)

/-- The `transactions` row built for one `Transfer` log of a receipt. -/
def transferRow (r : Receipt) (authLogs : List AuthLog) (t : RawLog) : TxRow :=
  let payer := decodeTopicAddr (t.topics.getD 1 "")
  let recipient := decodeTopicAddr (t.topics.getD 2 "")
  let authLog := authLogs.find? fun a => a.txHash == r.txHash
  { tx_hash := r.txHash, block_number := r.blockNumber, chain := "base",
    authorizer := (authLog.map fun a => strLower a.authorizer).getD payer,
    payer := payer, recipient := recipient, amount_raw := t.data,
    amount_usdc := (t.data : ℚ) / 1000000,
    facilitator := strLower r.txFrom,
    is_x402 := KNOWN_FACILITATORS.contains (strLower r.txFrom) }

/-- `INSERT ... ON CONFLICT (tx_hash, chain) DO NOTHING`. -/
def insertTxRow (txns : List TxRow) (row : TxRow) : List TxRow :=
  if txns.any fun q => q.tx_hash == row.tx_hash && q.chain == row.chain then txns
  else txns ++ [row]

/-- The scanner's database state: the `transactions` table and the
`wallets` table (a map from address, the unique key). -/
structure IndexDB where
  txns : List TxRow
  wallets : String → Option WalletRow

/-- Payment-scanner wallet upsert applied to the wallets table. -/
def upsertWalletX402 (ws : String → Option WalletRow) (addr : String) (block now : ℕ) :
    String → Option WalletRow :=
  fun a => if a = addr then some (applyX402 (ws addr) addr block now) else ws a

/-- The wallet-table effect of one `Transfer` log: upsert the decoded
payer, then the decoded recipient (`for addr of [payer, recipient]`). -/
def walletStep (block now : ℕ) (cur : String → Option WalletRow) (t : RawLog) :
    String → Option WalletRow :=
  upsertWalletX402
    (upsertWalletX402 cur (decodeTopicAddr (t.topics.getD 1 "")) block now)
    (decodeTopicAddr (t.topics.getD 2 "")) block now

/-- Processing of one USDC `Transfer` log: insert the transaction row
(idempotent on `(tx_hash, chain)`), then upsert both the payer and the
recipient wallet. -/
def processTransfer (db : IndexDB) (r : Receipt) (authLogs : List AuthLog) (now : ℕ)
    (t : RawLog) : IndexDB :=
  { txns := insertTxRow db.txns (transferRow r authLogs t),
    wallets := walletStep r.blockNumber now db.wallets t }

/-- Processing of one transaction hash: iterate over the receipt's USDC
`Transfer` logs. -/
def processReceipt (db : IndexDB) (r : Receipt) (authLogs : List AuthLog) (now : ℕ) : IndexDB :=
  (usdcTransfers r).foldl (fun d t => processTransfer d r authLogs now t) db

/-- Number of wallet upserts a transfer list performs for address `addr`
(payer and recipient of each transfer). -/
def occCount (addr : String) : List RawLog → ℕ
  | [] => 0
  | t :: ts =>
    (if decodeTopicAddr (t.topics.getD 1 "") = addr then 1 else 0) +
    (if decodeTopicAddr (t.topics.getD 2 "") = addr then 1 else 0) +
    occCount addr ts

/-! ### Notification dispatcher (webhook matching) -/

/-- A row of the `webhooks` table (the columns matching uses). -/
structure Webhook where
  wallet_address : Option String
  event_type : String
  threshold : Option ℤ

/-- Modelled from the spec: the repository holds only the webhook table and
its registration surface; the dispatcher that matches score deltas is not
in the source tree. Spec section 4.6: the wallet filter must match when
set; `score_drop` requires `delta < 0`, `score_rise` requires `delta > 0`,
`score_change` requires `delta ≠ 0` (and fires when no prior score exists);
a set threshold requires the old and new scores to lie on opposite sides
of it in the event's direction. -/
def matchWebhook (wh : Webhook) (addr : String) (oldScore : Option ℤ) (newScore : ℤ) : Bool :=
  let walletOk := match wh.wallet_address with
    | some a => a == addr
    | none => true
  let eventOk := match wh.event_type, oldScore with
    | "score_drop", some o =>
      decide (newScore - o < 0) &&
        (match wh.threshold with
          | some t => decide (o ≥ t ∧ newScore < t)
          | none => true)
    | "score_drop", none => false
    | "score_rise", some o =>
      decide (newScore - o > 0) &&
        (match wh.threshold with
          | some t => decide (o ≤ t ∧ newScore > t)
          | none => true)
    | "score_rise", none => false
    | "score_change", some o =>
      decide (newScore - o ≠ 0) &&
        (match wh.threshold with
          | some t => decide ((o ≥ t ∧ newScore < t) ∨ (o ≤ t ∧ newScore > t))
          | none => true)
    | "score_change", none => true
    | _, _ => false
  walletOk && eventOk

/-! ### Concrete demonstration inputs -/

/-- Topic paying address of the first demo transfer. -/
def demoTopicP1 : String := "0x000000000000000000000000aaaaaaaaaaaaaaaaaaaaaaaaaaaaaaaaaaaaaaa1"

/-- Topic receiving address of the first demo transfer. -/
def demoTopicR1 : String := "0x000000000000000000000000bbbbbbbbbbbbbbbbbbbbbbbbbbbbbbbbbbbbbbb1"

/-- Topic paying address of the second demo transfer. -/
def demoTopicP2 : String := "0x000000000000000000000000aaaaaaaaaaaaaaaaaaaaaaaaaaaaaaaaaaaaaaa2"

/-- Topic receiving address of the second demo transfer. -/
def demoTopicR2 : String := "0x000000000000000000000000bbbbbbbbbbbbbbbbbbbbbbbbbbbbbbbbbbbbbbb2"

/-- A receipt whose transaction contains two USDC `Transfer` logs. -/
def demoReceipt : Receipt :=
  { txHash := "0x1111111111111111111111111111111111111111111111111111111111111111",
    blockNumber := 100,
    txFrom := "0xA9236F4950001355455a5b016A25fA27B947c9AC",
    logs := [
      { address := BASE_USDC, topics := [TRANSFER_TOPIC, demoTopicP1, demoTopicR1],
        data := 1000000 },
      { address := BASE_USDC, topics := [TRANSFER_TOPIC, demoTopicP2, demoTopicR2],
        data := 2000000 }] }

/-- The empty scanner database. -/
def emptyDB : IndexDB := { txns := [], wallets := fun _ => none }

/-- A signal bundle whose pre-bonus weighted sum is exactly 97.5 at time
`180 * msPerDay` (all shapers saturate at 100 except loyalty at 275/3). -/
noncomputable def demoSignals : V3.WalletSignals :=
  { address := "0xdemo", tx_count := 140, first_seen_at := some 0,
    last_seen_at := some (180 * msPerDay), unique_counterparties := 30,
    avg_feedback := some 5, feedback_count := 10, total_volume_usdc := 300000,
    volume_counterparties := 30, is_registered := true }

/-- A minimal wallet bundle for the v2 engine, first seen ten days before
the evaluation time `10 * msPerDay`. -/
noncomputable def demoV2Signals : V2.WalletSignals :=
  { address := "0xdemo2", tx_count := 0, first_seen_at := some 0,
    last_seen_at := some (10 * msPerDay), unique_counterparties := 0,
    avg_feedback := none, feedback_count := 0, is_registered := false }

/-- The same wallet bundle for the v3 engine (volume signals absent). -/
noncomputable def demoV3Signals : V3.WalletSignals :=
  { address := "0xdemo2", tx_count := 0, first_seen_at := some 0,
    last_seen_at := some (10 * msPerDay), unique_counterparties := 0,
    avg_feedback := none, feedback_count := 0, total_volume_usdc := 0,
    volume_counterparties := 0, is_registered := false }

/-! ## Theorems -/

/-! ### Helper lemmas -/

/-- A clean batch loop over a non-empty range commits the cursor to the
range end (fuel-indexed induction on the remaining blocks). -/
theorem runBatches_eval (n : ℕ) : ∀ cursor current toBlock : ℕ,
    toBlock + 1 - current ≤ n → current ≤ toBlock →
    runBatches cursor current toBlock = toBlock := by
  induction n with
  | zero =>
    intro cursor current toBlock hn hle
    omega
  | succ n ih =>
    intro cursor current toBlock hn hle
    rw [runBatches, dif_pos hle]
    by_cases h2 : min (current + (BATCH_SIZE - 1)) toBlock + 1 ≤ toBlock
    · refine ih _ _ _ ?_ h2
      have h3 : current ≤ min (current + (BATCH_SIZE - 1)) toBlock :=
        le_min (Nat.le_add_right _ _) hle
      omega
    · have h4 : min (current + (BATCH_SIZE - 1)) toBlock ≤ toBlock := min_le_right _ _
      rw [runBatches, dif_neg (by omega)]
      omega

/-- Wrapper for `runBatches_eval` at its own measure. -/
theorem runBatches_eq (cursor current toBlock : ℕ) (h : current ≤ toBlock) :
    runBatches cursor current toBlock = toBlock :=
  runBatches_eval (toBlock + 1 - current) cursor current toBlock le_rfl h

/-- C5 counterexample: the identity scanner's conflict-update leaves
`needs_rescore` untouched — an existing wallet with `needs_rescore = false`
still has `needs_rescore = false` after a mint observation, contradicting
the claim that the upsert sets it to true (the other claimed effects do
happen: here `source` flips to `both`). -/
theorem mint_upsert_counterexample :
    (mintUpdate
        { address := "0xaa", source := "x402", chain := "base", erc8004_id := none,
          first_seen_block := 5, first_seen_at := 1, last_seen_at := 1,
          tx_count := 3, needs_rescore := false } 7 9).needs_rescore = false ∧
    (mintUpdate
        { address := "0xaa", source := "x402", chain := "base", erc8004_id := none,
          first_seen_block := 5, first_seen_at := 1, last_seen_at := 1,
          tx_count := 3, needs_rescore := false } 7 9).source = "both" := by
  constructor <;> rfl

/-- C5 (amended): the identity scanner's conflict-update flips `source`
from `x402` to `both`, keeps an existing `erc8004_id` (taking the incoming
one only when absent), bumps `last_seen_at`, and leaves `needs_rescore`,
`tx_count` and `first_seen_at` unchanged — it does not set `needs_rescore`. -/
theorem mint_upsert_amended (w : WalletRow) (tokenId now : ℕ) :
    ((mintUpdate w tokenId now).source = if w.source = "x402" then "both" else w.source) ∧
    (∀ i, w.erc8004_id = some i → (mintUpdate w tokenId now).erc8004_id = some i) ∧
    (w.erc8004_id = none → (mintUpdate w tokenId now).erc8004_id = some tokenId) ∧
    (mintUpdate w tokenId now).last_seen_at = now ∧
    (mintUpdate w tokenId now).needs_rescore = w.needs_rescore ∧
    (mintUpdate w tokenId now).tx_count = w.tx_count ∧
    (mintUpdate w tokenId now).first_seen_at = w.first_seen_at := by
  refine ⟨rfl, ?_, ?_, rfl, rfl, rfl, rfl⟩
  · intro i hi
    simp [mintUpdate, hi]
  · intro h
    simp [mintUpdate, h]

/-- Witness for `mint_upsert_amended` at concrete rows with a present and
an absent `erc8004_id`. -/
theorem mint_upsert_amended_witness :
    (mintUpdate
        { address := "0xaa", source := "x402", chain := "base", erc8004_id := some 3,
          first_seen_block := 5, first_seen_at := 1, last_seen_at := 1,
          tx_count := 4, needs_rescore := false } 7 9).erc8004_id = some 3 ∧
    (mintUpdate
        { address := "0xbb", source := "erc8004", chain := "ethereum", erc8004_id := none,
          first_seen_block := 5, first_seen_at := 1, last_seen_at := 1,
          tx_count := 4, needs_rescore := true } 7 9).erc8004_id = some 7 :=
  ⟨(mint_upsert_amended _ 7 9).2.1 3 rfl, (mint_upsert_amended _ 7 9).2.2.1 rfl⟩

/-- C8: a wallet's `source` only ever moves from `erc8004` or `x402` to
`both` under either scanner's upsert, never the reverse; once `both` it
stays `both` along any observation sequence; and the two scanners' first
observations converge on `both` in either order. -/
theorem source_promotion_monotone :
    (∀ (w : WalletRow) (tokenId now : ℕ),
      (mintUpdate w tokenId now).source = w.source ∨
        ((w.source = "erc8004" ∨ w.source = "x402") ∧
          (mintUpdate w tokenId now).source = "both")) ∧
    (∀ (w : WalletRow) (now : ℕ),
      (x402Update w now).source = w.source ∨
        ((w.source = "erc8004" ∨ w.source = "x402") ∧
          (x402Update w now).source = "both")) ∧
    (∀ (l : List Obs) (addr : String) (w w' : WalletRow),
      w.source = "both" → obsFold addr (some w) l = some w' → w'.source = "both") ∧
    (∀ (addr : String) (t1 b1 n1 b2 n2 : ℕ),
      (obsFold addr none [Obs.mint t1 b1 n1, Obs.pay b2 n2]).map WalletRow.source =
        some "both" ∧
      (obsFold addr none [Obs.pay b2 n2, Obs.mint t1 b1 n1]).map WalletRow.source =
        some "both") := by
  have hmint : ∀ (w : WalletRow) (tokenId now : ℕ),
      (mintUpdate w tokenId now).source = if w.source = "x402" then "both" else w.source :=
    fun _ _ _ => rfl
  have hpay : ∀ (w : WalletRow) (now : ℕ),
      (x402Update w now).source = if w.source = "erc8004" then "both" else w.source :=
    fun _ _ => rfl
  refine ⟨?_, ?_, ?_, ?_⟩
  · intro w tokenId now
    rw [hmint]
    by_cases h : w.source = "x402"
    · exact Or.inr ⟨Or.inr h, by rw [if_pos h]⟩
    · exact Or.inl (by rw [if_neg h])
  · intro w now
    rw [hpay]
    by_cases h : w.source = "erc8004"
    · exact Or.inr ⟨Or.inl h, by rw [if_pos h]⟩
    · exact Or.inl (by rw [if_neg h])
  · intro l
    induction l with
    | nil =>
      intro addr w w' hb he
      simp only [obsFold, List.foldl_nil, Option.some.injEq] at he
      rw [← he]
      exact hb
    | cons o rest ih =>
      intro addr w w' hb he
      simp only [obsFold, List.foldl_cons] at he
      refine ih addr (applyObs addr (some w) o) w' ?_ he
      cases o with
      | mint tokenId block now =>
        show (mintUpdate w tokenId now).source = "both"
        rw [hmint, hb, if_neg (by decide)]
      | pay block now =>
        show (x402Update w now).source = "both"
        rw [hpay, hb, if_neg (by decide)]
  · intro addr t1 b1 n1 b2 n2
    constructor <;> rfl

/-- Witness for `source_promotion_monotone` at a concrete `both`-sourced
row and a one-observation sequence. -/
theorem source_promotion_monotone_witness :
    (x402Update
        { address := "0xcc", source := "both", chain := "base", erc8004_id := none,
          first_seen_block := 1, first_seen_at := 1, last_seen_at := 1,
          tx_count := 2, needs_rescore := true } 9).source = "both" :=
  source_promotion_monotone.2.2.1 [Obs.pay 3 9] "0xcc" _ _ rfl rfl

/-- C4 counterexample: starting from a cursor at block 1000000 with
`--limit 50` and a distant chain head, a clean run ends with the cursor at
1000051 (the scan covers blocks 1000001 through 1000051, which is 51
blocks), not 1000050 as claimed. -/
theorem indexer_resume_counterexample :
    runX402Indexer (some 1000000) 2000000 7 (some 50) ≠ some 1000050 ∧
    runX402Indexer (some 1000000) 2000000 7 (some 50) = some 1000051 := by
  have h : runX402Indexer (some 1000000) 2000000 7 (some 50) = some 1000051 := by
    simp only [runX402Indexer, x402FromBlock, x402ToBlock]
    norm_num
    exact runBatches_eq 1000000 1000001 1000051 (by norm_num)
  refine ⟨?_, h⟩
  rw [h]
  intro hc
  exact absurd (Option.some.inj hc) (by norm_num)

/-- C4 (amended): with a cursor at 1000000 and `--limit 50`, a clean run
ends with the cursor at 1000051 (`to = from + limit` is inclusive, so
limit N scans N+1 blocks); re-running leaves the cursor untouched as long
as the head is at most 1000051, and advances it strictly past 1000051 once
the head exceeds 1000051. -/
theorem indexer_resume_amended (head daysBack : ℕ) :
    (1000051 ≤ head →
      runX402Indexer (some 1000000) head daysBack (some 50) = some 1000051) ∧
    (head ≤ 1000051 →
      runX402Indexer (some 1000051) head daysBack (some 50) = some 1000051) ∧
    (1000052 ≤ head →
      ∃ c, runX402Indexer (some 1000051) head daysBack (some 50) = some c ∧
        1000051 < c) := by
  refine ⟨?_, ?_, ?_⟩
  · intro hh
    simp only [runX402Indexer, x402FromBlock, x402ToBlock]
    rw [if_neg (by omega)]
    by_cases hcase : 1000001 + 50 < head
    · rw [if_pos hcase, Option.getD]
      rw [runBatches_eq 1000000 1000001 (1000001 + 50) (by omega)]
    · rw [if_neg hcase, Option.getD]
      rw [runBatches_eq 1000000 1000001 head (by omega)]
      exact congrArg some (by omega)
  · intro hh
    simp only [runX402Indexer, x402FromBlock]
    rw [if_pos (by omega)]
  · intro hh
    simp only [runX402Indexer, x402FromBlock, x402ToBlock]
    rw [if_neg (by omega)]
    by_cases hcase : 1000052 + 50 < head
    · rw [if_pos hcase, Option.getD]
      exact ⟨1000052 + 50, by rw [runBatches_eq _ _ _ (by omega)], by omega⟩
    · rw [if_neg hcase, Option.getD]
      exact ⟨head, by rw [runBatches_eq _ _ _ (by omega)], by omega⟩

/-- Evaluation of `trackCU` in the first-90%-crossing case. -/
theorem trackCU_abort (cus : ℕ) (counts : String → ℕ) (m : String) (n : ℕ)
    (h9 : ((cus + cuCost m * n : ℕ) : ℚ) / (MONTHLY_CU_BUDGET : ℚ) ≥ 9/10) :
    trackCU ⟨cus, counts, false⟩ m n =
      ⟨⟨cus + cuCost m * n,
        fun m2 => if m2 = m then counts m2 + n else counts m2, true⟩,
        false, true⟩ := by
  have h9b := h9
  push_cast at h9b
  simp [trackCU, h9b]

/-- Evaluation of `trackCU` in the warning case. -/
theorem trackCU_warn (cus : ℕ) (counts : String → ℕ) (flag : Bool) (m : String) (n : ℕ)
    (hp : ((cus + cuCost m * n : ℕ) : ℚ) / (MONTHLY_CU_BUDGET : ℚ) ≥ CU_WARNING_THRESHOLD)
    (hno : ¬(((cus + cuCost m * n : ℕ) : ℚ) / (MONTHLY_CU_BUDGET : ℚ) ≥ 9/10 ∧
      flag = false)) :
    trackCU ⟨cus, counts, flag⟩ m n =
      ⟨⟨cus + cuCost m * n,
        fun m2 => if m2 = m then counts m2 + n else counts m2, flag⟩,
        true, false⟩ := by
  have hpb := hp
  have hnob := hno
  push_cast at hpb hnob
  simp [trackCU, hpb, hnob]

/-- Evaluation of `trackCU` in the quiet case. -/
theorem trackCU_quiet (cus : ℕ) (counts : String → ℕ) (flag : Bool) (m : String) (n : ℕ)
    (hp : ¬((cus + cuCost m * n : ℕ) : ℚ) / (MONTHLY_CU_BUDGET : ℚ) ≥
      CU_WARNING_THRESHOLD) :
    trackCU ⟨cus, counts, flag⟩ m n =
      ⟨⟨cus + cuCost m * n,
        fun m2 => if m2 = m then counts m2 + n else counts m2, flag⟩,
        false, false⟩ := by
  have h9 : ¬((cus + cuCost m * n : ℕ) : ℚ) / (MONTHLY_CU_BUDGET : ℚ) ≥ 9/10 :=
    fun hc => hp (le_trans (by norm_num [CU_WARNING_THRESHOLD]) hc)
  have hpb := hp
  have h9b := h9
  push_cast at hpb h9b
  simp [trackCU, hpb, h9b]

/-- Once the terminal flag is set, every call whose cumulative usage is at
or above the warning threshold prints the warning again, and the flag
stays set. -/
theorem runCalls_flagged : ∀ (calls : List (String × ℕ)) (cus : ℕ) (counts : String → ℕ),
    (runCalls ⟨cus, counts, true⟩ calls).2 = countHot cus calls ∧
    (runCalls ⟨cus, counts, true⟩ calls).1.budgetExceeded = true := by
  intro calls
  induction calls with
  | nil =>
    intro cus counts
    exact ⟨rfl, rfl⟩
  | cons c rest ih =>
    obtain ⟨m, n⟩ := c
    intro cus counts
    simp only [runCalls, countHot]
    by_cases hp : ((cus + cuCost m * n : ℕ) : ℚ) / (MONTHLY_CU_BUDGET : ℚ) ≥
        CU_WARNING_THRESHOLD
    · simp only [trackCU_warn cus counts true m n hp (by simp), if_pos hp]
      have hrec := ih (cus + cuCost m * n)
        (fun m2 => if m2 = m then counts m2 + n else counts m2)
      exact ⟨by rw [← hrec.1]; simp, hrec.2⟩
    · simp only [trackCU_quiet cus counts true m n hp, if_neg hp]
      have hrec := ih (cus + cuCost m * n)
        (fun m2 => if m2 = m then counts m2 + n else counts m2)
      exact ⟨by rw [← hrec.1]; simp, hrec.2⟩

/-- C6 counterexample: two consecutive `trackCU` calls that both land the
cumulative usage in the 80–90% band each print a warning — the warning is
not a one-time event. After the first call (320000 `eth_getLogs`, exactly
80% of the budget) one warning has been printed; after the second call a
second warning has been printed. -/
theorem cu_warning_counterexample :
    (runCalls initCUState [("eth_getLogs", 320000)]).2 = 1 ∧
    (runCalls initCUState [("eth_getLogs", 320000), ("eth_getLogs", 1)]).2 = 2 := by
  have hc : cuCost "eth_getLogs" = 75 := rfl
  have hp1 : ((0 + cuCost "eth_getLogs" * 320000 : ℕ) : ℚ) / (MONTHLY_CU_BUDGET : ℚ) ≥
      CU_WARNING_THRESHOLD := by
    rw [hc]
    norm_num [MONTHLY_CU_BUDGET, CU_WARNING_THRESHOLD]
  have h91 : ¬((0 + cuCost "eth_getLogs" * 320000 : ℕ) : ℚ) / (MONTHLY_CU_BUDGET : ℚ) ≥
      9/10 := by
    rw [hc]
    norm_num [MONTHLY_CU_BUDGET]
  have hp2 : ((0 + cuCost "eth_getLogs" * 320000 + cuCost "eth_getLogs" * 1 : ℕ) : ℚ) /
      (MONTHLY_CU_BUDGET : ℚ) ≥ CU_WARNING_THRESHOLD := by
    rw [hc]
    norm_num [MONTHLY_CU_BUDGET, CU_WARNING_THRESHOLD]
  have h92 : ¬((0 + cuCost "eth_getLogs" * 320000 + cuCost "eth_getLogs" * 1 : ℕ) : ℚ) /
      (MONTHLY_CU_BUDGET : ℚ) ≥ 9/10 := by
    rw [hc]
    norm_num [MONTHLY_CU_BUDGET]
  constructor
  · show (runCalls ⟨0, fun _ => 0, false⟩ [("eth_getLogs", 320000)]).2 = 1
    simp only [runCalls,
      trackCU_warn 0 (fun _ => 0) false "eth_getLogs" 320000 hp1 (fun hcon => h91 hcon.1)]
    rfl
  · show (runCalls ⟨0, fun _ => 0, false⟩
      [("eth_getLogs", 320000), ("eth_getLogs", 1)]).2 = 2
    simp only [runCalls,
      trackCU_warn 0 (fun _ => 0) false "eth_getLogs" 320000 hp1 (fun hcon => h91 hcon.1)]
    simp only [trackCU_warn (0 + cuCost "eth_getLogs" * 320000) _ false "eth_getLogs" 1
      hp2 (fun hcon => h92 hcon.1)]
    rfl

/-- C6 (amended): over any run started with the terminal flag clear, the
number of warnings printed equals the number of `trackCU` calls whose
cumulative usage reaches the 80% threshold, minus one exactly when the
run crosses 90% (that single crossing call prints the terminal message
instead of a warning, and every later call at or above 80% keeps
warning) — not "exactly once". -/
theorem cu_warning_amended (calls : List (String × ℕ)) : ∀ (cus : ℕ)
    (counts : String → ℕ),
    (runCalls ⟨cus, counts, false⟩ calls).2 +
      (if (runCalls ⟨cus, counts, false⟩ calls).1.budgetExceeded then 1 else 0) =
      countHot cus calls := by
  induction calls with
  | nil =>
    intro cus counts
    simp [runCalls, countHot]
  | cons c rest ih =>
    obtain ⟨m, n⟩ := c
    intro cus counts
    simp only [runCalls, countHot]
    by_cases h9 : ((cus + cuCost m * n : ℕ) : ℚ) / (MONTHLY_CU_BUDGET : ℚ) ≥ 9/10
    · -- first crossing of 90%: terminal message, no warning, flag set
      simp only [trackCU_abort cus counts m n h9]
      rw [if_pos (le_trans
        (show (CU_WARNING_THRESHOLD : ℚ) ≤ 9/10 by norm_num [CU_WARNING_THRESHOLD]) h9)]
      have hrec := runCalls_flagged rest (cus + cuCost m * n)
        (fun m2 => if m2 = m then counts m2 + n else counts m2)
      simp only [hrec.1, hrec.2]
      simp
      omega
    · by_cases hp : ((cus + cuCost m * n : ℕ) : ℚ) / (MONTHLY_CU_BUDGET : ℚ) ≥
          CU_WARNING_THRESHOLD
      · -- warning band: warning printed, flag stays clear
        simp only [trackCU_warn cus counts false m n hp (fun hc => h9 hc.1)]
        rw [if_pos hp]
        have hih := ih (cus + cuCost m * n)
          (fun m2 => if m2 = m then counts m2 + n else counts m2)
        rw [← hih]
        simp [add_assoc]
      · -- below the band: nothing printed
        simp only [trackCU_quiet cus counts false m n hp]
        rw [if_neg hp]
        have hih := ih (cus + cuCost m * n)
          (fun m2 => if m2 = m then counts m2 + n else counts m2)
        rw [← hih]
        simp [add_assoc]

/-- Witness for `cu_warning_amended` at the concrete two-call trace. -/
theorem cu_warning_amended_witness :
    (runCalls initCUState [("eth_getLogs", 320000), ("eth_getLogs", 1)]).2 +
      (if (runCalls initCUState
            [("eth_getLogs", 320000), ("eth_getLogs", 1)]).1.budgetExceeded
        then 1 else 0) =
      countHot 0 [("eth_getLogs", 320000), ("eth_getLogs", 1)] :=
  cu_warning_amended [("eth_getLogs", 320000), ("eth_getLogs", 1)] 0 (fun _ => 0)

/-- A log-ratio shaper value is nonnegative when its argument is at
least 1 and the saturation point is above 1. -/
theorem logb_ratio_nonneg (x c : ℝ) (hx : (1 : ℝ) ≤ x) (hc : (1 : ℝ) < c) :
    0 ≤ Real.logb 10 x / Real.logb 10 c * 100 :=
  mul_nonneg
    (div_nonneg (Real.logb_nonneg (by norm_num) hx)
      (Real.logb_pos (by norm_num) hc).le)
    (by norm_num)

/-- C1 counterexample: two shapers escape [0, 100] on inputs in their
domains. With 2 transactions spread over 100 counterparties the loyalty
base `(r - 1) / 4 * 100` is negative and the code only clamps from above;
with a negative average feedback at full confidence the feedback blend is
-100. -/
theorem shaper_range_counterexample :
    V3.loyaltyScore 2 100 < 0 ∧ V3.feedbackScore (some (-5)) 10 < 0 := by
  constructor
  · norm_num [V3.loyaltyScore, min_def]
  · norm_num [V3.feedbackScore, min_def]

/-- C1 (amended): the age, activity, diversity, recency and volume shapers
always return values in [0, 100]; loyalty and feedback are only bounded
above by 100 in general — loyalty is nonnegative when the counterparty
count does not exceed the transaction count, and feedback is nonnegative
when the average feedback value is nonnegative (or absent). -/
theorem shaper_range_amended :
    (∀ (now : ℝ) (fs : Option ℝ),
      0 ≤ V3.ageScore now fs ∧ V3.ageScore now fs ≤ 100) ∧
    (∀ n : ℕ, 0 ≤ V3.activityScore n ∧ V3.activityScore n ≤ 100) ∧
    (∀ n : ℕ, 0 ≤ V3.diversityScore n ∧ V3.diversityScore n ≤ 100) ∧
    (∀ (now : ℝ) (ls : Option ℝ),
      0 ≤ V3.recencyScore now ls ∧ V3.recencyScore now ls ≤ 100) ∧
    (∀ (v : ℝ) (c : ℕ), 0 ≤ V3.volumeScore v c ∧ V3.volumeScore v c ≤ 100) ∧
    (∀ t u : ℕ, V3.loyaltyScore t u ≤ 100 ∧ (u ≤ t → 0 ≤ V3.loyaltyScore t u)) ∧
    (∀ (a : Option ℝ) (c : ℕ), V3.feedbackScore a c ≤ 100 ∧
      (∀ x, a = some x → 0 ≤ x → 0 ≤ V3.feedbackScore a c)) := by
  refine ⟨?_, ?_, ?_, ?_, ?_, ?_, ?_⟩
  · intro now fs
    cases fs with
    | none => simp [V3.ageScore]
    | some t =>
      simp only [V3.ageScore]
      by_cases hd : (now - t) / msPerDay < 0
      · rw [if_pos hd]
        norm_num
      · rw [if_neg hd]
        refine ⟨le_min (by norm_num) (logb_ratio_nonneg _ _ ?_ (by norm_num)),
          min_le_left _ _⟩
        push_neg at hd
        linarith
  · intro n
    simp only [V3.activityScore]
    by_cases hn : n = 0
    · rw [if_pos hn]
      norm_num
    · rw [if_neg hn]
      refine ⟨le_min (by norm_num) (logb_ratio_nonneg _ _ ?_ (by norm_num)),
        min_le_left _ _⟩
      have : (0 : ℝ) ≤ (n : ℝ) := Nat.cast_nonneg n
      linarith
  · intro n
    simp only [V3.diversityScore]
    by_cases hn : n = 0
    · rw [if_pos hn]
      norm_num
    · rw [if_neg hn]
      refine ⟨le_min (by norm_num) (logb_ratio_nonneg _ _ ?_ (by norm_num)),
        min_le_left _ _⟩
      have : (0 : ℝ) ≤ (n : ℝ) := Nat.cast_nonneg n
      linarith
  · intro now ls
    cases ls with
    | none => simp [V3.recencyScore]
    | some t =>
      simp only [V3.recencyScore]
      by_cases h1 : (now - t) / msPerDay < 0
      · rw [if_pos h1]
        norm_num
      · rw [if_neg h1]
        by_cases h2 : (now - t) / msPerDay ≤ 7
        · rw [if_pos h2]
          norm_num
        · rw [if_neg h2]
          by_cases h3 : (now - t) / msPerDay ≥ 90
          · rw [if_pos h3]
            norm_num
          · rw [if_neg h3]
            push_neg at h2
            have hsub : (0 : ℝ) ≤ ((now - t) / msPerDay - 7) / 83 * 100 := by
              have h7 : (0 : ℝ) ≤ (now - t) / msPerDay - 7 := by linarith
              positivity
            exact ⟨le_max_left _ _, max_le (by norm_num) (by linarith)⟩
  · intro v c
    simp only [V3.volumeScore]
    by_cases hvc : v ≤ 0 ∨ c = 0
    · rw [if_pos hvc]
      norm_num
    · rw [if_neg hvc]
      push_neg at hvc
      have hv : (0 : ℝ) < v := hvc.1
      have hc : (0 : ℝ) < (c : ℝ) := by
        have := Nat.pos_of_ne_zero hvc.2
        exact_mod_cast this
      refine ⟨le_min (by norm_num) (logb_ratio_nonneg _ _ ?_ (by norm_num)),
        min_le_left _ _⟩
      have hd : (0 : ℝ) ≤ v / (c : ℝ) := (div_pos hv hc).le
      linarith
  · intro t u
    simp only [V3.loyaltyScore]
    by_cases hz : t ≤ 1 ∨ u = 0
    · rw [if_pos hz]
      norm_num
    · rw [if_neg hz]
      push_neg at hz
      have hu : (0 : ℝ) < (u : ℝ) := by
        have := Nat.pos_of_ne_zero hz.2
        exact_mod_cast this
      constructor
      · by_cases hs : (t : ℝ) / (u : ℝ) > 20 ∧ u < 3
        · rw [if_pos hs]
          exact le_trans (min_le_left _ _) (by norm_num)
        · rw [if_neg hs]
          exact min_le_left _ _
      · intro hut
        have hr : (1 : ℝ) ≤ (t : ℝ) / (u : ℝ) := by
          rw [le_div_iff₀ hu]
          have : (u : ℝ) ≤ (t : ℝ) := by exact_mod_cast hut
          linarith
        have hbase : (0 : ℝ) ≤ ((t : ℝ) / (u : ℝ) - 1) / 4 * 100 := by
          have : (0 : ℝ) ≤ (t : ℝ) / (u : ℝ) - 1 := by linarith
          positivity
        by_cases hs : (t : ℝ) / (u : ℝ) > 20 ∧ u < 3
        · rw [if_pos hs]
          exact le_min (by norm_num) hbase
        · rw [if_neg hs]
          exact le_min (by norm_num) hbase
  · intro a c
    cases a with
    | none =>
      refine ⟨by norm_num [V3.feedbackScore], ?_⟩
      intro x hx
      exact absurd hx (by simp)
    | some avg =>
      simp only [V3.feedbackScore]
      by_cases hc : c = 0
      · rw [if_pos hc]
        exact ⟨by norm_num, fun x _ _ => by norm_num⟩
      · rw [if_neg hc]
        have hc0 : (0 : ℝ) ≤ min 1 ((c : ℝ) / 10) :=
          le_min (by norm_num) (by positivity)
        have hc1 : min 1 ((c : ℝ) / 10) ≤ 1 := min_le_left _ _
        have hraw : min 100 (avg / 5 * 100) ≤ 100 := min_le_left _ _
        constructor
        · have h1 : min 1 ((c : ℝ) / 10) * min 100 (avg / 5 * 100) ≤
              min 1 ((c : ℝ) / 10) * 100 :=
            mul_le_mul_of_nonneg_left hraw hc0
          nlinarith
        · intro x hx hx0
          have hax : avg = x := by
            injection hx
          have hraw0 : (0 : ℝ) ≤ min 100 (avg / 5 * 100) := by
            refine le_min (by norm_num) ?_
            rw [hax]
            positivity
          have h1 := mul_nonneg hc0 hraw0
          have h2 : (0 : ℝ) ≤ (1 - min 1 ((c : ℝ) / 10)) * 50 := by
            have : (0 : ℝ) ≤ 1 - min 1 ((c : ℝ) / 10) := by linarith
            linarith [mul_nonneg this (by norm_num : (0 : ℝ) ≤ 50)]
          linarith

/-- Witness for `shaper_range_amended`: the loyalty and feedback bounds at
inputs satisfying their side conditions. -/
theorem shaper_range_amended_witness :
    0 ≤ V3.loyaltyScore 10 5 ∧ 0 ≤ V3.feedbackScore (some 4) 10 :=
  ⟨(shaper_range_amended.2.2.2.2.2.1 10 5).2 (by norm_num),
   (shaper_range_amended.2.2.2.2.2.2 (some 4) 10).2 4 rfl (by norm_num)⟩

/-- A log-ratio shaper saturates at 100 once its argument reaches the
saturation point. -/
theorem logb_ratio_sat (x c : ℝ) (hc : (1 : ℝ) < c) (hcx : c ≤ x) :
    min 100 (Real.logb 10 x / Real.logb 10 c * 100) = 100 := by
  have hcpos : 0 < Real.logb 10 c := Real.logb_pos (by norm_num) hc
  have hle : Real.logb 10 c ≤ Real.logb 10 x :=
    Real.logb_le_logb_of_le (by norm_num) (by linarith) hcx
  have h1 : (1 : ℝ) ≤ Real.logb 10 x / Real.logb 10 c := (one_le_div hcpos).mpr hle
  exact min_eq_left (by linarith)

/-- The activity shaper saturates at 140 transactions. -/
theorem activityScore_140 : V3.activityScore 140 = 100 := by
  simp only [V3.activityScore]
  rw [if_neg (by norm_num)]
  rw [show ((140 : ℕ) : ℝ) + 1 = 141 by norm_num]
  exact logb_ratio_sat 141 101 (by norm_num) (by norm_num)

/-- The diversity shaper saturates at 30 counterparties. -/
theorem diversityScore_30 : V3.diversityScore 30 = 100 := by
  simp only [V3.diversityScore]
  rw [if_neg (by norm_num)]
  rw [show ((30 : ℕ) : ℝ) + 1 = 31 by norm_num]
  exact logb_ratio_sat 31 31 (by norm_num) le_rfl

/-- The age shaper saturates at 180 days. -/
theorem ageScore_180 : V3.ageScore (180 * msPerDay) (some 0) = 100 := by
  simp only [V3.ageScore]
  rw [show (180 * msPerDay - 0) / msPerDay = 180 by norm_num [msPerDay]]
  rw [if_neg (by norm_num)]
  rw [show (180 : ℝ) + 1 = 181 by norm_num]
  exact logb_ratio_sat 181 181 (by norm_num) le_rfl

/-- The volume shaper saturates at an average deal size of 10000 USDC. -/
theorem volumeScore_10000 : V3.volumeScore 300000 30 = 100 := by
  simp only [V3.volumeScore]
  rw [if_neg (by norm_num)]
  rw [show (300000 : ℝ) / ((30 : ℕ) : ℝ) + 1 = 10001 by norm_num]
  exact logb_ratio_sat 10001 10001 (by norm_num) le_rfl

/-- The recency shaper at zero days since last activity. -/
theorem recencyScore_same (T : ℝ) : V3.recencyScore T (some T) = 100 := by
  simp only [V3.recencyScore]
  rw [show (T - T) / msPerDay = 0 by norm_num]
  rw [if_neg (by norm_num), if_pos (by norm_num)]

/-- The feedback shaper at a 5.0 average over ten reviews. -/
theorem feedbackScore_full : V3.feedbackScore (some 5) 10 = 100 := by
  norm_num [V3.feedbackScore, min_def]

/-- The loyalty shaper at 140 transactions over 30 counterparties. -/
theorem loyaltyScore_140_30 : V3.loyaltyScore 140 30 = 275 / 3 := by
  norm_num [V3.loyaltyScore, min_def]

/-- C2: `computeScore` is the weighted sum of the seven shaper outputs
(weights loyalty 0.30, activity 0.18, diversity 0.16, feedback 0.15,
volume 0.10, recency 0.06, age 0.05) rounded to the nearest integer, plus
5 when `is_registered`, clamped to [0, 100]; in particular a pre-bonus
rounded sum of 98 with `is_registered = true` yields exactly 100. -/
theorem computeScore_composition (now : ℝ) (w : V3.WalletSignals) :
    ((V3.computeScore now w).score =
      max 0 (min 100 (round (V3.specWeightedSum now w) +
        (if w.is_registered then (5 : ℤ) else 0)))) ∧
    (round (V3.specWeightedSum now w) = 98 → w.is_registered = true →
      (V3.computeScore now w).score = 100) := by
  have hsum : V3.loyaltyScore w.tx_count w.unique_counterparties * (0.30 : ℝ) +
      V3.activityScore w.tx_count * 0.18 +
      V3.diversityScore w.unique_counterparties * 0.16 +
      V3.feedbackScore w.avg_feedback w.feedback_count * 0.15 +
      V3.volumeScore w.total_volume_usdc w.volume_counterparties * 0.10 +
      V3.recencyScore now w.last_seen_at * 0.06 +
      V3.ageScore now w.first_seen_at * 0.05 = V3.specWeightedSum now w := by
    simp only [V3.specWeightedSum]
    ring
  have hmain : (V3.computeScore now w).score =
      max 0 (min 100 (round (V3.specWeightedSum now w) +
        (if w.is_registered then (5 : ℤ) else 0))) := by
    simp only [V3.computeScore, V3.WEIGHTS]
    rw [hsum]
    cases hreg : w.is_registered
    · simp
    · simp
  refine ⟨hmain, fun h98 hreg => ?_⟩
  rw [hmain, h98, hreg]
  norm_num

/-- Witness for `computeScore_composition`: the demo bundle reaches a
pre-bonus rounded sum of exactly 98 and a final clamped score of 100. -/
theorem computeScore_composition_witness :
    round (V3.specWeightedSum (180 * msPerDay) demoSignals) = 98 ∧
    (V3.computeScore (180 * msPerDay) demoSignals).score = 100 := by
  have h98 : round (V3.specWeightedSum (180 * msPerDay) demoSignals) = 98 := by
    simp only [V3.specWeightedSum, demoSignals]
    rw [loyaltyScore_140_30, activityScore_140, diversityScore_30, feedbackScore_full,
      volumeScore_10000, recencyScore_same, ageScore_180]
    rw [round_eq]
    norm_num
  exact ⟨h98, (computeScore_composition (180 * msPerDay) demoSignals).2 h98 rfl⟩

/-- C7: a webhook matches only when the delta has the sign its event type
requires (`score_drop` needs `delta < 0`, `score_rise` needs `delta > 0`,
`score_change` needs `delta ≠ 0`), and on the concrete snapshot old = 85,
new = 49 a `score_drop` webhook with threshold 50 matches while a
`score_rise` webhook does not. -/
theorem webhook_match_rules :
    (∀ (wh : Webhook) (addr : String) (oldScore : Option ℤ) (newScore : ℤ),
      matchWebhook wh addr oldScore newScore = true →
        ((wh.event_type = "score_drop" → ∃ o, oldScore = some o ∧ newScore - o < 0) ∧
         (wh.event_type = "score_rise" → ∃ o, oldScore = some o ∧ newScore - o > 0) ∧
         (wh.event_type = "score_change" → ∀ o, oldScore = some o → newScore - o ≠ 0))) ∧
    (∀ addr : String,
      matchWebhook ⟨none, "score_drop", some 50⟩ addr (some 85) 49 = true) ∧
    (∀ addr : String,
      matchWebhook ⟨none, "score_rise", some 50⟩ addr (some 85) 49 = false) := by
  refine ⟨?_, fun addr => by simp [matchWebhook], fun addr => by simp [matchWebhook]⟩
  intro wh addr oldScore newScore h
  obtain ⟨wa, et, th⟩ := wh
  refine ⟨?_, ?_, ?_⟩
  · intro he
    subst he
    cases oldScore with
    | none => simp [matchWebhook] at h
    | some o =>
      simp only [matchWebhook, Bool.and_eq_true, decide_eq_true_eq] at h
      exact ⟨o, rfl, h.2.1⟩
  · intro he
    subst he
    cases oldScore with
    | none => simp [matchWebhook] at h
    | some o =>
      simp only [matchWebhook, Bool.and_eq_true, decide_eq_true_eq] at h
      exact ⟨o, rfl, h.2.1⟩
  · intro he o ho
    subst he
    subst ho
    simp only [matchWebhook, Bool.and_eq_true, decide_eq_true_eq] at h
    exact h.2.1

/-- Witness for `webhook_match_rules`: the sign condition discharged at the
concrete matching drop webhook. -/
theorem webhook_match_rules_witness :
    ∃ o, (some (85 : ℤ)) = some o ∧ (49 : ℤ) - o < 0 :=
  (webhook_match_rules.1 ⟨none, "score_drop", some 50⟩ "0xw" (some 85) 49
    (by decide)).1 rfl

/-- Once a row with the receipt's `(tx_hash, chain)` key sits in the
transactions table, further transfer processing leaves the table
unchanged. -/
theorem foldl_txns_key_present (r : Receipt) (al : List AuthLog) (now : ℕ) :
    ∀ (ts : List RawLog) (db : IndexDB),
      (db.txns.any fun q => q.tx_hash == r.txHash && q.chain == "base") = true →
      (ts.foldl (fun d t => processTransfer d r al now t) db).txns = db.txns := by
  intro ts
  induction ts with
  | nil =>
    intro db _
    rfl
  | cons t rest ih =>
    intro db h
    have hstep : (processTransfer db r al now t).txns = db.txns := by
      simp only [processTransfer, insertTxRow, transferRow]
      rw [if_pos h]
    simp only [List.foldl_cons]
    rw [ih (processTransfer db r al now t) (by rw [hstep]; exact h), hstep]

/-- Processing one transfer always leaves the receipt's key present. -/
theorem processTransfer_key (r : Receipt) (al : List AuthLog) (now : ℕ) (t : RawLog)
    (db : IndexDB) :
    ((processTransfer db r al now t).txns.any
      fun q => q.tx_hash == r.txHash && q.chain == "base") = true := by
  simp only [processTransfer, insertTxRow, transferRow]
  by_cases hc : (db.txns.any fun q => q.tx_hash == r.txHash && q.chain == "base") = true
  · rw [if_pos hc]
    exact hc
  · rw [if_neg hc]
    simp [List.any_append]

/-- After processing a non-empty transfer list, the receipt's key is
present in the transactions table. -/
theorem foldl_txns_key (r : Receipt) (al : List AuthLog) (now : ℕ) :
    ∀ (ts : List RawLog) (db : IndexDB), ts ≠ [] →
      ((ts.foldl (fun d t => processTransfer d r al now t) db).txns.any
        fun q => q.tx_hash == r.txHash && q.chain == "base") = true := by
  intro ts
  induction ts with
  | nil =>
    intro db h
    exact absurd rfl h
  | cons t rest ih =>
    intro db _
    simp only [List.foldl_cons]
    by_cases hrest : rest = []
    · subst hrest
      exact processTransfer_key r al now t db
    · exact ih _ hrest

/-- C3 counterexample: a receipt carrying two USDC `Transfer` logs under
one transaction hash yields a single persisted row, not one row per
Transfer — the second insert hits the `(tx_hash, chain)` conflict and is
dropped. -/
theorem one_row_per_transfer_counterexample :
    (usdcTransfers demoReceipt).length = 2 ∧
    (processReceipt emptyDB demoReceipt [] 0).txns.length = 1 := by
  constructor
  · decide
  · decide

/-- C3 (amended): when the receipt's `(tx_hash, chain)` key is not yet
present, processing persists exactly one row — the one decoded from the
first USDC `Transfer` of the receipt; every further Transfer in the same
receipt leaves the transactions table unchanged. -/
theorem first_transfer_row_only (db : IndexDB) (r : Receipt) (al : List AuthLog)
    (now : ℕ) (t : RawLog) (ts : List RawLog)
    (hts : usdcTransfers r = t :: ts)
    (hkey : (db.txns.any fun q => q.tx_hash == r.txHash && q.chain == "base") = false) :
    (processReceipt db r al now).txns = db.txns ++ [transferRow r al t] := by
  have hstep : (processTransfer db r al now t).txns = db.txns ++ [transferRow r al t] := by
    simp only [processTransfer, insertTxRow, transferRow]
    rw [if_neg (by rw [hkey]; simp)]
  simp only [processReceipt, hts, List.foldl_cons]
  rw [foldl_txns_key_present r al now ts (processTransfer db r al now t)
    (processTransfer_key r al now t db), hstep]

/-- Witness for `first_transfer_row_only` at the two-transfer demo receipt
over the empty database. -/
theorem first_transfer_row_only_witness :
    (processReceipt emptyDB demoReceipt [] 0).txns =
      emptyDB.txns ++ [transferRow demoReceipt []
        { address := BASE_USDC, topics := [TRANSFER_TOPIC, demoTopicP1, demoTopicR1],
          data := 1000000 }] :=
  first_transfer_row_only emptyDB demoReceipt [] 0
    ({ address := BASE_USDC, topics := [TRANSFER_TOPIC, demoTopicP1, demoTopicR1],
       data := 1000000 })
    ([{ address := BASE_USDC, topics := [TRANSFER_TOPIC, demoTopicP2, demoTopicR2],
        data := 2000000 }])
    (by decide) (by decide)

/-- Reading the upsert target back out of a wallet upsert of an existing
row gives the updated row. -/
theorem upsertW_lookup_eq (ws : String → Option WalletRow) (target : String)
    (block now : ℕ) (addr : String) (ht : target = addr) (w : WalletRow)
    (hw : ws addr = some w) :
    upsertWalletX402 ws target block now addr = some (x402Update w now) := by
  subst ht
  simp [upsertWalletX402, hw, applyX402]

/-- Reading any other address out of a wallet upsert is unchanged. -/
theorem upsertW_lookup_ne (ws : String → Option WalletRow) (target : String)
    (block now : ℕ) (addr : String) (ht : ¬target = addr) :
    upsertWalletX402 ws target block now addr = ws addr := by
  simp only [upsertWalletX402]
  rw [if_neg (fun hh => ht hh.symm)]

/-- Effect of one transfer's pair of wallet upserts on an existing row:
the transaction counter grows by the number of times the address appears
as payer or recipient, the dirty flag and timestamp are set when it
appears at all, and the row is untouched otherwise. -/
theorem upsertPair_lookup (ws : String → Option WalletRow) (payer recip : String)
    (block now : ℕ) (addr : String) (w : WalletRow) (hw : ws addr = some w) :
    ∃ w2, upsertWalletX402 (upsertWalletX402 ws payer block now) recip block now addr =
        some w2 ∧
      w2.tx_count = w.tx_count +
        ((if payer = addr then 1 else 0) + (if recip = addr then 1 else 0)) ∧
      ((payer = addr ∨ recip = addr) →
        w2.needs_rescore = true ∧ w2.last_seen_at = now) ∧
      (¬(payer = addr ∨ recip = addr) → w2 = w) := by
  by_cases hp : payer = addr <;> by_cases hq : recip = addr
  · refine ⟨x402Update (x402Update w now) now, ?_, ?_,
      fun _ => ⟨rfl, rfl⟩, fun hcon => absurd (Or.inl hp) hcon⟩
    · exact upsertW_lookup_eq _ recip block now addr hq _
        (upsertW_lookup_eq ws payer block now addr hp w hw)
    · rw [if_pos hp, if_pos hq]
      simp [x402Update]
  · refine ⟨x402Update w now, ?_, ?_,
      fun _ => ⟨rfl, rfl⟩, fun hcon => absurd (Or.inl hp) hcon⟩
    · rw [upsertW_lookup_ne _ recip block now addr hq]
      exact upsertW_lookup_eq ws payer block now addr hp w hw
    · rw [if_pos hp, if_neg hq]
      simp [x402Update]
  · refine ⟨x402Update w now, ?_, ?_,
      fun _ => ⟨rfl, rfl⟩, fun hcon => absurd (Or.inr hq) hcon⟩
    · refine upsertW_lookup_eq _ recip block now addr hq w ?_
      rw [upsertW_lookup_ne ws payer block now addr hp]
      exact hw
    · rw [if_neg hp, if_pos hq]
      simp [x402Update]
  · refine ⟨w, ?_, ?_, fun hcon => absurd hcon (by simp [hp, hq]),
      fun _ => rfl⟩
    · rw [upsertW_lookup_ne _ recip block now addr hq,
        upsertW_lookup_ne ws payer block now addr hp]
      exact hw
    · rw [if_neg hp, if_neg hq]
      omega

/-- `upsertPair_lookup` specialised to the decoded addresses of one
transfer log. -/
theorem walletStep_lookup (block now : ℕ) (t : RawLog) (ws : String → Option WalletRow)
    (addr : String) (w : WalletRow) (hw : ws addr = some w) :
    ∃ w2, walletStep block now ws t addr = some w2 ∧
      w2.tx_count = w.tx_count +
        ((if decodeTopicAddr (t.topics.getD 1 "") = addr then 1 else 0) +
         (if decodeTopicAddr (t.topics.getD 2 "") = addr then 1 else 0)) ∧
      ((decodeTopicAddr (t.topics.getD 1 "") = addr ∨
        decodeTopicAddr (t.topics.getD 2 "") = addr) →
        w2.needs_rescore = true ∧ w2.last_seen_at = now) ∧
      (¬(decodeTopicAddr (t.topics.getD 1 "") = addr ∨
         decodeTopicAddr (t.topics.getD 2 "") = addr) → w2 = w) :=
  upsertPair_lookup ws (decodeTopicAddr (t.topics.getD 1 ""))
    (decodeTopicAddr (t.topics.getD 2 "")) block now addr w hw

/-- A pair of upserts leaves the address's row present whenever the
address is the payer or the recipient. -/
theorem upsertPair_some (ws : String → Option WalletRow) (payer recip : String)
    (block now : ℕ) (addr : String) (hor : payer = addr ∨ recip = addr) :
    ∃ w1, upsertWalletX402 (upsertWalletX402 ws payer block now) recip block now addr =
      some w1 := by
  by_cases hq : recip = addr
  · subst hq
    simp only [upsertWalletX402, if_pos rfl]
    exact ⟨_, rfl⟩
  · rw [upsertW_lookup_ne _ recip block now addr hq]
    rcases hor with hp | hq2
    · subst hp
      simp only [upsertWalletX402, if_pos rfl]
      exact ⟨_, rfl⟩
    · exact absurd hq2 hq

/-- One transfer's wallet upserts leave the address's row present whenever
the address is its decoded payer or recipient. -/
theorem walletStep_some (block now : ℕ) (t : RawLog) (ws : String → Option WalletRow)
    (addr : String)
    (hor : decodeTopicAddr (t.topics.getD 1 "") = addr ∨
      decodeTopicAddr (t.topics.getD 2 "") = addr) :
    ∃ w1, walletStep block now ws t addr = some w1 :=
  upsertPair_some ws (decodeTopicAddr (t.topics.getD 1 ""))
    (decodeTopicAddr (t.topics.getD 2 "")) block now addr hor

/-- Accumulated effect of a transfer list on an existing wallet row. -/
theorem foldW_lookup (block now : ℕ) : ∀ (ts : List RawLog)
    (ws : String → Option WalletRow) (addr : String) (w : WalletRow),
    ws addr = some w →
    ∃ w2, (ts.foldl (walletStep block now) ws) addr = some w2 ∧
      w2.tx_count = w.tx_count + occCount addr ts ∧
      (1 ≤ occCount addr ts → w2.needs_rescore = true ∧ w2.last_seen_at = now) ∧
      (occCount addr ts = 0 → w2 = w) := by
  intro ts
  induction ts with
  | nil =>
    intro ws addr w hw
    refine ⟨w, hw, by simp [occCount], ?_, fun _ => rfl⟩
    intro h
    simp [occCount] at h
  | cons t rest ih =>
    intro ws addr w hw
    obtain ⟨w1, hw1, htx1, hflag1, hid1⟩ := walletStep_lookup block now t ws addr w hw
    obtain ⟨w2, hw2, htx2, hflag2, hid2⟩ :=
      ih (walletStep block now ws t) addr w1 hw1
    have hoc : occCount addr (t :: rest) =
        ((if decodeTopicAddr (t.topics.getD 1 "") = addr then 1 else 0) +
         (if decodeTopicAddr (t.topics.getD 2 "") = addr then 1 else 0)) +
        occCount addr rest := rfl
    refine ⟨w2, by simpa [List.foldl_cons] using hw2, ?_, ?_, ?_⟩
    · rw [htx2, htx1, hoc, add_assoc]
    · intro h
      rw [hoc] at h
      by_cases hrest : 1 ≤ occCount addr rest
      · exact hflag2 hrest
      · have hocc0 : occCount addr rest = 0 := by omega
        rw [hid2 hocc0]
        by_cases hp : decodeTopicAddr (t.topics.getD 1 "") = addr
        · exact hflag1 (Or.inl hp)
        · by_cases hq : decodeTopicAddr (t.topics.getD 2 "") = addr
          · exact hflag1 (Or.inr hq)
          · exfalso
            rw [if_neg hp, if_neg hq, hocc0] at h
            omega
    · intro h0
      rw [hoc] at h0
      by_cases hp : decodeTopicAddr (t.topics.getD 1 "") = addr
      · exfalso
        rw [if_pos hp] at h0
        omega
      · by_cases hq : decodeTopicAddr (t.topics.getD 2 "") = addr
        · exfalso
          rw [if_neg hp, if_pos hq] at h0
          omega
        · rw [if_neg hp, if_neg hq] at h0
          have hocc0 : occCount addr rest = 0 := by omega
          rw [hid2 hocc0, hid1 (fun hor => hor.elim hp hq)]

/-- A transfer list in which the address appears leaves its row present. -/
theorem foldW_exists (block now : ℕ) : ∀ (ts : List RawLog)
    (ws : String → Option WalletRow) (addr : String),
    1 ≤ occCount addr ts →
    ∃ w2, (ts.foldl (walletStep block now) ws) addr = some w2 := by
  intro ts
  induction ts with
  | nil =>
    intro ws addr h
    simp [occCount] at h
  | cons t rest ih =>
    intro ws addr h
    by_cases hor : decodeTopicAddr (t.topics.getD 1 "") = addr ∨
        decodeTopicAddr (t.topics.getD 2 "") = addr
    · obtain ⟨w1, hw1⟩ := walletStep_some block now t ws addr hor
      obtain ⟨w2, hw2, _, _, _⟩ :=
        foldW_lookup block now rest (walletStep block now ws t) addr w1 hw1
      exact ⟨w2, by simpa [List.foldl_cons] using hw2⟩
    · push_neg at hor
      have hoc : occCount addr (t :: rest) =
          ((if decodeTopicAddr (t.topics.getD 1 "") = addr then 1 else 0) +
           (if decodeTopicAddr (t.topics.getD 2 "") = addr then 1 else 0)) +
          occCount addr rest := rfl
      rw [hoc, if_neg hor.1, if_neg hor.2] at h
      obtain ⟨w2, hw2⟩ := ih (walletStep block now ws t) addr (by omega)
      exact ⟨w2, by simpa [List.foldl_cons] using hw2⟩

/-- The wallets component of receipt processing is the fold of the wallet
upserts over the receipt's USDC transfers. -/
theorem foldl_wallets_eq (r : Receipt) (al : List AuthLog) (now : ℕ) :
    ∀ (ts : List RawLog) (db : IndexDB),
    (ts.foldl (fun d t => processTransfer d r al now t) db).wallets =
      ts.foldl (walletStep r.blockNumber now) db.wallets := by
  intro ts
  induction ts with
  | nil =>
    intro db
    rfl
  | cons t rest ih =>
    intro db
    simp only [List.foldl_cons]
    rw [ih (processTransfer db r al now t)]
    rfl

/-- C9: re-processing an already-indexed receipt inserts no transaction
row (the `(tx_hash, chain)` conflict is ignored) yet still performs every
wallet upsert: each address appearing among the receipt's decoded payers
and recipients gains exactly its number of appearances in `tx_count`, gets
`needs_rescore = true` and a bumped `last_seen_at` — `tx_count` counts
observations and re-scanning is not idempotent on wallets. -/
theorem rescan_not_idempotent (db : IndexDB) (r : Receipt) (al : List AuthLog)
    (n1 n2 : ℕ) (addr : String)
    (hocc : 1 ≤ occCount addr (usdcTransfers r)) :
    ((processReceipt (processReceipt db r al n1) r al n2).txns =
      (processReceipt db r al n1).txns) ∧
    ∃ w1 w2,
      (processReceipt db r al n1).wallets addr = some w1 ∧
      (processReceipt (processReceipt db r al n1) r al n2).wallets addr = some w2 ∧
      w2.tx_count = w1.tx_count + occCount addr (usdcTransfers r) ∧
      w1.tx_count < w2.tx_count ∧
      w2.needs_rescore = true ∧ w2.last_seen_at = n2 := by
  have hne : usdcTransfers r ≠ [] := by
    intro h
    rw [h] at hocc
    simp [occCount] at hocc
  constructor
  · have hkey : ((processReceipt db r al n1).txns.any
        fun q => q.tx_hash == r.txHash && q.chain == "base") = true := by
      simp only [processReceipt]
      exact foldl_txns_key r al n1 (usdcTransfers r) db hne
    simp only [processReceipt]
    exact foldl_txns_key_present r al n2 (usdcTransfers r) _ hkey
  · have h1 : ∃ w1, (processReceipt db r al n1).wallets addr = some w1 := by
      simp only [processReceipt]
      rw [foldl_wallets_eq]
      exact foldW_exists r.blockNumber n1 (usdcTransfers r) db.wallets addr hocc
    obtain ⟨w1, hw1⟩ := h1
    obtain ⟨w2, hw2, htx, hflag, _⟩ :=
      foldW_lookup r.blockNumber n2 (usdcTransfers r)
        (processReceipt db r al n1).wallets addr w1 hw1
    refine ⟨w1, w2, hw1, ?_, htx, by omega, (hflag hocc).1, (hflag hocc).2⟩
    simp only [processReceipt]
    rw [foldl_wallets_eq]
    exact hw2

set_option maxRecDepth 8000 in
/-- Witness for `rescan_not_idempotent`: the demo receipt's first decoded
payer, over the empty database. -/
theorem rescan_not_idempotent_witness :
    1 ≤ occCount (decodeTopicAddr demoTopicP1) (usdcTransfers demoReceipt) ∧
    (((processReceipt (processReceipt emptyDB demoReceipt [] 1) demoReceipt [] 2).txns =
      (processReceipt emptyDB demoReceipt [] 1).txns) ∧
    ∃ w1 w2,
      (processReceipt emptyDB demoReceipt [] 1).wallets (decodeTopicAddr demoTopicP1) =
        some w1 ∧
      (processReceipt (processReceipt emptyDB demoReceipt [] 1) demoReceipt []
        2).wallets (decodeTopicAddr demoTopicP1) = some w2 ∧
      w2.tx_count = w1.tx_count + occCount (decodeTopicAddr demoTopicP1)
        (usdcTransfers demoReceipt) ∧
      w1.tx_count < w2.tx_count ∧
      w2.needs_rescore = true ∧ w2.last_seen_at = 2) :=
  ⟨by decide,
   rescan_not_idempotent emptyDB demoReceipt [] 1 2 (decodeTopicAddr demoTopicP1)
     (by decide)⟩

/-- The v2 age shaper ten days after first sight: linear, 50/9 ≈ 5.6. -/
theorem v2_ageScore_10 : V2.ageScore (10 * msPerDay) (some 0) = 50 / 9 := by
  simp only [V2.ageScore]
  rw [show (10 * msPerDay - 0) / msPerDay = 10 by norm_num [msPerDay]]
  rw [if_neg (by norm_num)]
  rw [min_eq_right (by norm_num)]
  norm_num

/-- The v3 age shaper ten days after first sight is strictly between 40
and 50 (the log-ratio `log 11 / log 181` lies in (2/5, 1/2) because
181² < 11⁵ and 11² < 181). -/
theorem v3_ageScore_10_bounds :
    40 < V3.ageScore (10 * msPerDay) (some 0) ∧
    V3.ageScore (10 * msPerDay) (some 0) < 50 := by
  simp only [V3.ageScore]
  rw [show (10 * msPerDay - 0) / msPerDay = 10 by norm_num [msPerDay]]
  rw [if_neg (by norm_num)]
  rw [show (10 : ℝ) + 1 = 11 by norm_num]
  have hlog181 : 0 < Real.log 181 := Real.log_pos (by norm_num)
  have hlog11 : 0 < Real.log 11 := Real.log_pos (by norm_num)
  have hlow : 2 * Real.log 181 < 5 * Real.log 11 := by
    have h1 : Real.log ((181 : ℝ) ^ (2 : ℕ)) < Real.log ((11 : ℝ) ^ (5 : ℕ)) :=
      Real.log_lt_log (by positivity) (by norm_num)
    rw [Real.log_pow, Real.log_pow] at h1
    push_cast at h1
    linarith
  have hhigh : 2 * Real.log 11 < Real.log 181 := by
    have h1 : Real.log ((11 : ℝ) ^ (2 : ℕ)) < Real.log 181 :=
      Real.log_lt_log (by positivity) (by norm_num)
    rw [Real.log_pow] at h1
    push_cast at h1
    linarith
  have hr : Real.logb 10 11 / Real.logb 10 181 = Real.log 11 / Real.log 181 := by
    simp only [Real.logb]
    have hl10 : 0 < Real.log 10 := Real.log_pos (by norm_num)
    field_simp
  have hrlow : (2 : ℝ) / 5 < Real.log 11 / Real.log 181 := by
    rw [div_lt_div_iff₀ (by norm_num) hlog181]
    linarith
  have hrhigh : Real.log 11 / Real.log 181 < 1 / 2 := by
    rw [div_lt_div_iff₀ hlog181 (by norm_num)]
    linarith
  rw [min_eq_right (by rw [hr]; nlinarith)]
  rw [hr]
  constructor <;> nlinarith

/-- The v2 engine's full score on the ten-day-old otherwise-empty wallet. -/
theorem v2_score_demo : (V2.computeScore (10 * msPerDay) demoV2Signals).score = 14 := by
  have hrec : V2.recencyScore (10 * msPerDay) (some (10 * msPerDay)) = 100 := by
    simp only [V2.recencyScore]
    rw [show (10 * msPerDay - 10 * msPerDay) / msPerDay = 0 by norm_num]
    rw [if_neg (by norm_num), if_pos (by norm_num)]
  simp only [V2.computeScore, V2.WEIGHTS, demoV2Signals]
  rw [v2_ageScore_10, hrec]
  rw [show V2.loyaltyScore 0 0 = 0 from by norm_num [V2.loyaltyScore]]
  rw [show V2.activityScore 0 = 0 from by norm_num [V2.activityScore]]
  rw [show V2.diversityScore 0 = 0 from by norm_num [V2.diversityScore]]
  rw [show V2.feedbackScore none 0 = 50 from rfl]
  rw [show (0 : ℝ) * 0.32 + 0 * 0.20 + 0 * 0.18 + 50 * 0.15 + 50 / 9 * 0.09 +
    100 * 0.06 = 14 from by norm_num]
  rw [show round (14 : ℝ) = 14 from by norm_num [round_eq]]
  norm_num

/-- The v3 engine's full score on the same wallet. -/
theorem v3_score_demo : (V3.computeScore (10 * msPerDay) demoV3Signals).score = 21 := by
  obtain ⟨hlo, hhi⟩ := v3_ageScore_10_bounds
  simp only [V3.computeScore, V3.WEIGHTS, demoV3Signals]
  rw [recencyScore_same]
  rw [show V3.loyaltyScore 0 0 = 0 from by norm_num [V3.loyaltyScore]]
  rw [show V3.activityScore 0 = 0 from by norm_num [V3.activityScore]]
  rw [show V3.diversityScore 0 = 0 from by norm_num [V3.diversityScore]]
  rw [show V3.feedbackScore none 0 = 50 from rfl]
  rw [show V3.volumeScore 0 0 = 50 from by norm_num [V3.volumeScore]]
  have h21 : round ((0 : ℝ) * 0.30 + 0 * 0.18 + 0 * 0.16 + 50 * 0.15 + 50 * 0.10 +
      100 * 0.06 + V3.ageScore (10 * msPerDay) (some 0) * 0.05) = 21 := by
    rw [round_eq, Int.floor_eq_iff]
    constructor
    · push_cast
      nlinarith
    · push_cast
      nlinarith
  rw [h21]
  norm_num

/-- C10: the two scoring implementations are not extensionally equal — on
a wallet first seen ten days earlier with no other activity, the v2 engine
(six weights, linear age) returns 14 while the v3 engine (seven weights,
logarithmic age) returns 21; the age shapers themselves give 50/9 ≈ 5.6
versus a value in (40, 50). -/
theorem engines_differ :
    (V2.computeScore (10 * msPerDay) demoV2Signals).score = 14 ∧
    (V3.computeScore (10 * msPerDay) demoV3Signals).score = 21 ∧
    V2.ageScore (10 * msPerDay) (some 0) = 50 / 9 ∧
    40 < V3.ageScore (10 * msPerDay) (some 0) ∧
    V3.ageScore (10 * msPerDay) (some 0) < 50 ∧
    (V2.computeScore (10 * msPerDay) demoV2Signals).score ≠
      (V3.computeScore (10 * msPerDay) demoV3Signals).score := by
  refine ⟨v2_score_demo, v3_score_demo, v2_ageScore_10, v3_ageScore_10_bounds.1,
    v3_ageScore_10_bounds.2, ?_⟩
  rw [v2_score_demo, v3_score_demo]
  norm_num

/-- Witness for `indexer_resume_amended` at concrete heads. -/
theorem indexer_resume_amended_witness :
    runX402Indexer (some 1000000) 2000000 7 (some 50) = some 1000051 ∧
    runX402Indexer (some 1000051) 1000051 7 (some 50) = some 1000051 ∧
    ∃ c, runX402Indexer (some 1000051) 2000000 7 (some 50) = some c ∧ 1000051 < c :=
  ⟨(indexer_resume_amended 2000000 7).1 (by norm_num),
   (indexer_resume_amended 1000051 7).2.1 (by norm_num),
   (indexer_resume_amended 2000000 7).2.2 (by norm_num)⟩

end AgentKarma
